import Mathlib

/-!
Shallow embedding of the FigureFlo fluid-simulation code
(`src/utils/emotionFluidMapping.js`, `src/utils/fluidHelpers.js`,
`src/utils/fluidPrograms.js` and the `useFluidSimulation` hook).
JavaScript numbers are modelled as rationals (`ℚ`); JS 32-bit integer
operations carry an explicit wrap to `[-2^31, 2^31)`.
-/

/-- RGB colour triple, as in the `BACK_COLOR` objects of the presets. -/
structure RGBColor where
  r : ℚ
  g : ℚ
  b : ℚ
deriving DecidableEq, Repr

/-- The shape of an emotion preset object in `emotionFluidMapping.js`. -/
structure EmotionConfig where
  COLORFUL : Bool
  BLOOM_INTENSITY : ℚ
  BLOOM_THRESHOLD : ℚ
  SUNRAYS : Bool
  SUNRAYS_WEIGHT : ℚ
  VELOCITY_DISSIPATION : ℚ
  DENSITY_DISSIPATION : ℚ
  SPLAT_FORCE : ℚ
  CURL : ℚ
  PRESSURE : ℚ
  BACK_COLOR : RGBColor
deriving DecidableEq, Repr

/-- `emotionPresets.Joy`. -/
def joyPreset : EmotionConfig :=
  { COLORFUL := true, BLOOM_INTENSITY := 12/10, BLOOM_THRESHOLD := 4/10,
    SUNRAYS := true, SUNRAYS_WEIGHT := 1, VELOCITY_DISSIPATION := 15/100,
    DENSITY_DISSIPATION := 8/10, SPLAT_FORCE := 7000, CURL := 35,
    PRESSURE := 8/10, BACK_COLOR := ⟨5, 5, 10⟩ }

/-- `emotionPresets.Sadness`. -/
def sadnessPreset : EmotionConfig :=
  { COLORFUL := false, BLOOM_INTENSITY := 3/10, BLOOM_THRESHOLD := 8/10,
    SUNRAYS := false, SUNRAYS_WEIGHT := 3/10, VELOCITY_DISSIPATION := 4/10,
    DENSITY_DISSIPATION := 12/10, SPLAT_FORCE := 3000, CURL := 15,
    PRESSURE := 6/10, BACK_COLOR := ⟨0, 0, 20⟩ }

/-- `emotionPresets.Excitement`. -/
def excitementPreset : EmotionConfig :=
  { COLORFUL := true, BLOOM_INTENSITY := 15/10, BLOOM_THRESHOLD := 3/10,
    SUNRAYS := true, SUNRAYS_WEIGHT := 12/10, VELOCITY_DISSIPATION := 1/10,
    DENSITY_DISSIPATION := 6/10, SPLAT_FORCE := 8000, CURL := 40,
    PRESSURE := 85/100, BACK_COLOR := ⟨10, 0, 0⟩ }

/-- `emotionPresets.Calmness`. -/
def calmnessPreset : EmotionConfig :=
  { COLORFUL := false, BLOOM_INTENSITY := 6/10, BLOOM_THRESHOLD := 5/10,
    SUNRAYS := true, SUNRAYS_WEIGHT := 5/10, VELOCITY_DISSIPATION := 5/10,
    DENSITY_DISSIPATION := 1, SPLAT_FORCE := 4000, CURL := 20,
    PRESSURE := 7/10, BACK_COLOR := ⟨0, 10, 10⟩ }

/-- `emotionPresets.Anger`. -/
def angerPreset : EmotionConfig :=
  { COLORFUL := true, BLOOM_INTENSITY := 1, BLOOM_THRESHOLD := 2/10,
    SUNRAYS := false, SUNRAYS_WEIGHT := 8/10, VELOCITY_DISSIPATION := 5/100,
    DENSITY_DISSIPATION := 5/10, SPLAT_FORCE := 9000, CURL := 50,
    PRESSURE := 9/10, BACK_COLOR := ⟨20, 0, 0⟩ }

/-- `emotionPresets.Fear`. -/
def fearPreset : EmotionConfig :=
  { COLORFUL := false, BLOOM_INTENSITY := 4/10, BLOOM_THRESHOLD := 7/10,
    SUNRAYS := false, SUNRAYS_WEIGHT := 2/10, VELOCITY_DISSIPATION := 3/10,
    DENSITY_DISSIPATION := 15/10, SPLAT_FORCE := 5000, CURL := 25,
    PRESSURE := 75/100, BACK_COLOR := ⟨5, 0, 10⟩ }

/-- `emotionPresets.Surprise`. -/
def surprisePreset : EmotionConfig :=
  { COLORFUL := true, BLOOM_INTENSITY := 13/10, BLOOM_THRESHOLD := 35/100,
    SUNRAYS := true, SUNRAYS_WEIGHT := 11/10, VELOCITY_DISSIPATION := 12/100,
    DENSITY_DISSIPATION := 7/10, SPLAT_FORCE := 7500, CURL := 38,
    PRESSURE := 82/100, BACK_COLOR := ⟨8, 8, 0⟩ }

/-- `emotionPresets.Neutral`. -/
def neutralPreset : EmotionConfig :=
  { COLORFUL := true, BLOOM_INTENSITY := 8/10, BLOOM_THRESHOLD := 6/10,
    SUNRAYS := true, SUNRAYS_WEIGHT := 1, VELOCITY_DISSIPATION := 2/10,
    DENSITY_DISSIPATION := 1, SPLAT_FORCE := 6000, CURL := 30,
    PRESSURE := 8/10, BACK_COLOR := ⟨0, 0, 0⟩ }

/-- The `emotionPresets` object viewed as a key → value lookup. -/
def emotionPresets (name : String) : Option EmotionConfig :=
  if name = "Joy" then some joyPreset
  else if name = "Sadness" then some sadnessPreset
  else if name = "Excitement" then some excitementPreset
  else if name = "Calmness" then some calmnessPreset
  else if name = "Anger" then some angerPreset
  else if name = "Fear" then some fearPreset
  else if name = "Surprise" then some surprisePreset
  else if name = "Neutral" then some neutralPreset
  else none

/-- The keys of the `emotionPresets` object. -/
def emotionPresetKeys : List String :=
  ["Joy", "Sadness", "Excitement", "Calmness", "Anger", "Fear", "Surprise", "Neutral"]

/-- `lerp` from `blendEmotionConfigs` (`const lerp = (a, b, t) => a + (b - a) * t`). -/
def lerp (a b t : ℚ) : ℚ := a + (b - a) * t

/-- JS `Math.round`: round half towards positive infinity, `⌊x + 1/2⌋`. -/
def jsRound (x : ℚ) : ℤ := ⌊x + 1/2⌋

/-- `blendEmotionConfigs(config1, config2, factor)` from `emotionFluidMapping.js`. -/
def blendEmotionConfigs (config1 config2 : EmotionConfig) (factor : ℚ) : EmotionConfig :=
  { COLORFUL := if factor > 1/2 then config1.COLORFUL else config2.COLORFUL,
    BLOOM_INTENSITY := lerp config2.BLOOM_INTENSITY config1.BLOOM_INTENSITY factor,
    BLOOM_THRESHOLD := lerp config2.BLOOM_THRESHOLD config1.BLOOM_THRESHOLD factor,
    SUNRAYS := if factor > 1/2 then config1.SUNRAYS else config2.SUNRAYS,
    SUNRAYS_WEIGHT := lerp config2.SUNRAYS_WEIGHT config1.SUNRAYS_WEIGHT factor,
    VELOCITY_DISSIPATION :=
      lerp config2.VELOCITY_DISSIPATION config1.VELOCITY_DISSIPATION factor,
    DENSITY_DISSIPATION :=
      lerp config2.DENSITY_DISSIPATION config1.DENSITY_DISSIPATION factor,
    SPLAT_FORCE := lerp config2.SPLAT_FORCE config1.SPLAT_FORCE factor,
    CURL := lerp config2.CURL config1.CURL factor,
    PRESSURE := lerp config2.PRESSURE config1.PRESSURE factor,
    BACK_COLOR :=
      ⟨(jsRound (lerp config2.BACK_COLOR.r config1.BACK_COLOR.r factor) : ℚ),
       (jsRound (lerp config2.BACK_COLOR.g config1.BACK_COLOR.g factor) : ℚ),
       (jsRound (lerp config2.BACK_COLOR.b config1.BACK_COLOR.b factor) : ℚ)⟩ }

/-- The name normalisation in `getEmotionFluidConfig`:
`emotionName.charAt(0).toUpperCase() + emotionName.slice(1).toLowerCase()`
(first character uppercased, remainder lowercased; empty input stays empty). -/
def normalizeEmotionName (emotionName : String) : String :=
  ⟨(emotionName.data.take 1).map Char.toUpper
    ++ (emotionName.data.drop 1).map Char.toLower⟩

/-- `getEmotionFluidConfig(emotionName, confidence)` from `emotionFluidMapping.js`. -/
def getEmotionFluidConfig (emotionName : String) (confidence : ℚ) : EmotionConfig :=
  let normalizedName := normalizeEmotionName emotionName
  let preset := (emotionPresets normalizedName).getD neutralPreset
  if confidence < 7/10 then
    blendEmotionConfigs preset neutralPreset confidence
  else
    preset

/-- The mutable state of an `EmotionTransitioner` instance. -/
structure EmotionTransitioner where
  currentConfig : EmotionConfig
  targetConfig : EmotionConfig
  transitionProgress : ℚ
  transitionSpeed : ℚ
deriving DecidableEq, Repr

namespace EmotionTransitioner

/-- `new EmotionTransitioner(initialConfig)` (default argument `emotionPresets.Neutral`). -/
def create (initialConfig : EmotionConfig := neutralPreset) : EmotionTransitioner :=
  { currentConfig := initialConfig, targetConfig := initialConfig,
    transitionProgress := 1, transitionSpeed := 2/100 }

/-- `EmotionTransitioner.setEmotion(emotionName, confidence)`. -/
def setEmotion (t : EmotionTransitioner) (emotionName : String) (confidence : ℚ) :
    EmotionTransitioner :=
  { t with targetConfig := getEmotionFluidConfig emotionName confidence,
           transitionProgress := 0 }

/-- `EmotionTransitioner.update()`, returning the new state (the returned
configuration is its `currentConfig` field). -/
def update (t : EmotionTransitioner) : EmotionTransitioner :=
  if t.transitionProgress < 1 then
    let p := min (t.transitionProgress + t.transitionSpeed) 1
    let easedT := if p < 1/2 then 2 * p * p else -1 + (4 - 2 * p) * p
    { t with transitionProgress := p,
             currentConfig := blendEmotionConfigs t.targetConfig t.currentConfig easedT }
  else
    t

end EmotionTransitioner

/-- One external call made on an `EmotionTransitioner`. -/
inductive EmotionCall
  | set (emotionName : String) (confidence : ℚ)
  | upd
deriving Repr

/-- Run a sequence of calls against a transitioner state. -/
def runEmotionCalls (calls : List EmotionCall) (t : EmotionTransitioner) :
    EmotionTransitioner :=
  calls.foldl
    (fun s c =>
      match c with
      | .set name confidence => s.setEmotion name confidence
      | .upd => s.update)
    t

/-!
## GPU pass machinery

The `useFluidSimulation` hook drives WebGL through `bind`/`uniform*`/`blit`
calls plus double-FBO `swap`s. We record those calls as a trace of `GLOp`s
(translated line-by-line from `step` and `createSplat`) and interpret the
trace into the list of executed passes: a `blit` executes one pass of the
program bound at that moment, reading that program's current uniform values.
-/

/-- The program objects of `programsRef.current` used by `step`/`createSplat`. -/
inductive ProgName
  | blur | copy | clear | color | splat | advection
  | divergence | curl | vorticity | pressure | gradientSubtract | display
deriving DecidableEq, Repr

/-- The double FBOs (`createDoubleFBO`) that support `swap()`. -/
inductive DoubleFBO
  | velocity | pressure | dye
deriving DecidableEq, Repr

/-- Render targets passed to `blit`. -/
inductive BlitTarget
  | curlFBO | divergenceFBO | writeOf (b : DoubleFBO) | screen
deriving DecidableEq, Repr

/-- One WebGL call issued by the hook. -/
inductive GLOp
  | disableBlend
  | bindProgram (p : ProgName)
  | uniform1f (name : String) (value : ℚ)
  | uniform2f (name : String) (x y : ℚ)
  | uniform3f (name : String) (x y z : ℚ)
  | uniform1i (name : String)
  | blit (target : BlitTarget)
  | swap (b : DoubleFBO)
deriving DecidableEq, Repr

/-- A per-program float-uniform store (most recent assignment first),
mirroring that `gl.uniform1f` writes to the currently bound program. -/
def UniformStore := List (ProgName × String × ℚ)

/-- Record a `gl.uniform1f` assignment on program `p`. -/
def setUniform (st : UniformStore) (p : ProgName) (name : String) (value : ℚ) :
    UniformStore :=
  (p, name, value) :: st

/-- Current value of float uniform `name` on program `p` (0 if never set). -/
def getUniform (st : UniformStore) (p : ProgName) (name : String) : ℚ :=
  match st with
  | [] => 0
  | e :: rest => if e.1 = p ∧ e.2.1 = name then e.2.2 else getUniform rest p name

/-- One executed GPU pass (a `blit`) or one CPU-side double-buffer swap,
as observed in the interpreted trace. -/
inductive FluidPass
  | curl
  | vorticity
  | divergence
  | clearPressure (value : ℚ)
  | pressureJacobi
  | gradientSubtract
  | advectVelocity (dissipation : ℚ)
  | advectDye (dissipation : ℚ)
  | splat (target : BlitTarget) (radius : ℚ)
  | swapVelocity
  | swapPressure
  | swapDye
  | otherBlit
deriving DecidableEq, Repr

/-- The pass executed by a `blit` given the bound program and uniform store. -/
def passOfBlit (bound : Option ProgName) (target : BlitTarget) (st : UniformStore) :
    FluidPass :=
  match bound, target with
  | some .curl, _ => .curl
  | some .vorticity, _ => .vorticity
  | some .divergence, _ => .divergence
  | some .clear, _ => .clearPressure (getUniform st .clear "value")
  | some .pressure, _ => .pressureJacobi
  | some .gradientSubtract, _ => .gradientSubtract
  | some .advection, .writeOf .velocity =>
      .advectVelocity (getUniform st .advection "dissipation")
  | some .advection, .writeOf .dye =>
      .advectDye (getUniform st .advection "dissipation")
  | some .splat, t => .splat t (getUniform st .splat "radius")
  | _, _ => .otherBlit

/-- The trace event of a `swap()` call. -/
def passOfSwap (b : DoubleFBO) : FluidPass :=
  match b with
  | .velocity => .swapVelocity
  | .pressure => .swapPressure
  | .dye => .swapDye

/-- Interpret a `GLOp` trace into the executed passes. -/
def interpGL : List GLOp → Option ProgName → UniformStore → List FluidPass
  | [], _, _ => []
  | .disableBlend :: ops, bound, st => interpGL ops bound st
  | .bindProgram p :: ops, _, st => interpGL ops (some p) st
  | .uniform1f name value :: ops, bound, st =>
      match bound with
      | some p => interpGL ops bound (setUniform st p name value)
      | none => interpGL ops bound st
  | .uniform2f _ _ _ :: ops, bound, st => interpGL ops bound st
  | .uniform3f _ _ _ _ :: ops, bound, st => interpGL ops bound st
  | .uniform1i _ :: ops, bound, st => interpGL ops bound st
  | .blit t :: ops, bound, st => passOfBlit bound t st :: interpGL ops bound st
  | .swap b :: ops, bound, st => passOfSwap b :: interpGL ops bound st

/-- The configuration fields of `configRef.current` read by `step` and
`createSplat`. -/
structure FluidConfig where
  PRESSURE : ℚ
  PRESSURE_ITERATIONS : ℕ
  CURL : ℚ
  VELOCITY_DISSIPATION : ℚ
  DENSITY_DISSIPATION : ℚ
  SPLAT_RADIUS : ℚ
  SPLAT_FORCE : ℚ
deriving DecidableEq, Repr

/-- The relevant fields of `defaultConfig` in `useFluidSimulation`. -/
def defaultFluidConfig : FluidConfig :=
  { PRESSURE := 8/10, PRESSURE_ITERATIONS := 20, CURL := 30,
    VELOCITY_DISSIPATION := 2/10, DENSITY_DISSIPATION := 1,
    SPLAT_RADIUS := 25/100, SPLAT_FORCE := 6000 }

/-- `correctRadius(radius, canvasWidth, canvasHeight)` from `fluidHelpers.js`. -/
def correctRadius (radius canvasWidth canvasHeight : ℚ) : ℚ :=
  let aspect := canvasWidth / canvasHeight
  if aspect > 1 then radius * aspect else radius

/-- The body of the pressure `for` loop in `step`, iterated
`cfg.PRESSURE_ITERATIONS` times. -/
def pressureIterationOps : ℕ → List GLOp
  | 0 => []
  | n + 1 =>
      [.uniform1i "uPressure", .blit (.writeOf .pressure), .swap .pressure]
      ++ pressureIterationOps n

/-- The `step(dt)` callback of `useFluidSimulation`, as the trace of WebGL
calls it issues (texel sizes and `ext.supportLinearFiltering` are inputs). -/
def step (cfg : FluidConfig) (dt velTexelX velTexelY dyeTexelX dyeTexelY : ℚ)
    (supportLinearFiltering : Bool) : List GLOp :=
  [.disableBlend,
   .bindProgram .curl,
   .uniform2f "texelSize" velTexelX velTexelY,
   .uniform1i "uVelocity",
   .blit .curlFBO,
   .bindProgram .vorticity,
   .uniform2f "texelSize" velTexelX velTexelY,
   .uniform1i "uVelocity",
   .uniform1i "uCurl",
   .uniform1f "curl" cfg.CURL,
   .uniform1f "dt" dt,
   .blit (.writeOf .velocity),
   .swap .velocity,
   .bindProgram .divergence,
   .uniform2f "texelSize" velTexelX velTexelY,
   .uniform1i "uVelocity",
   .blit .divergenceFBO,
   .bindProgram .clear,
   .uniform1i "uTexture",
   .uniform1f "value" cfg.PRESSURE,
   .blit (.writeOf .pressure),
   .swap .pressure,
   .bindProgram .pressure,
   .uniform2f "texelSize" velTexelX velTexelY,
   .uniform1i "uDivergence"]
  ++ pressureIterationOps cfg.PRESSURE_ITERATIONS
  ++ [.bindProgram .gradientSubtract,
      .uniform2f "texelSize" velTexelX velTexelY,
      .uniform1i "uPressure",
      .uniform1i "uVelocity",
      .blit (.writeOf .velocity),
      .swap .velocity,
      .bindProgram .advection,
      .uniform2f "texelSize" velTexelX velTexelY]
  ++ (if supportLinearFiltering then []
      else [.uniform2f "dyeTexelSize" velTexelX velTexelY])
  ++ [.uniform1i "uVelocity",
      .uniform1i "uSource",
      .uniform1f "dt" dt,
      .uniform1f "dissipation" cfg.VELOCITY_DISSIPATION,
      .blit (.writeOf .velocity),
      .swap .velocity]
  ++ (if supportLinearFiltering then []
      else [.uniform2f "dyeTexelSize" dyeTexelX dyeTexelY])
  ++ [.uniform1i "uVelocity",
      .uniform1i "uSource",
      .uniform1f "dissipation" cfg.DENSITY_DISSIPATION,
      .blit (.writeOf .dye),
      .swap .dye]

/-- The `createSplat(x, y, dx, dy, color)` callback, as its WebGL call trace. -/
def createSplat (cfg : FluidConfig) (x y dx dy : ℚ) (color : RGBColor)
    (canvasWidth canvasHeight : ℚ) : List GLOp :=
  [.bindProgram .splat,
   .uniform1i "uTarget",
   .uniform1f "aspectRatio" (canvasWidth / canvasHeight),
   .uniform2f "point" x y,
   .uniform3f "color" dx dy 0,
   .uniform1f "radius" (correctRadius (cfg.SPLAT_RADIUS / 100) canvasWidth canvasHeight),
   .blit (.writeOf .velocity),
   .swap .velocity,
   .uniform1i "uTarget",
   .uniform3f "color" color.r color.g color.b,
   .blit (.writeOf .dye),
   .swap .dye]

/-- The timestep computation at the head of the `animate` loop:
`dt = (now - lastUpdateTime) / 1000; dt = Math.min(dt, 0.016666)`. -/
def animateDt (now lastUpdateTime : ℚ) : ℚ :=
  min ((now - lastUpdateTime) / 1000) (16666/1000000)

/-!
## `hashCode` and `Material` (`fluidPrograms.js`)
-/

/-- JS `| 0`: wrap an exact integer to a signed 32-bit value. -/
def toInt32 (z : ℤ) : ℤ := (z + 2^31) % 2^32 - 2^31

/-- One iteration of the `hashCode` loop:
`hash = (hash << 5) - hash + s.charCodeAt(i); hash |= 0`.
(`<<` itself wraps its result to 32 bits in JS.) -/
def hashCodeStep (hash : ℤ) (c : Char) : ℤ :=
  toInt32 (toInt32 (hash * 32) - hash + c.toNat)

/-- `hashCode(s)` from `fluidHelpers.js`. -/
def hashCode (s : String) : ℤ :=
  if s.length = 0 then 0 else s.data.foldl hashCodeStep 0

/-- The state of a `Material` instance: the `programs` cache keyed by hash
(program objects numbered by creation order), the active program, the
program whose uniform locations are currently loaded, and the id the next
`createProgram` call would produce (so `nextProgramId` counts compilations). -/
structure Material where
  programs : List (ℤ × ℕ)
  activeProgram : Option ℕ
  uniforms : Option ℕ
  nextProgramId : ℕ
deriving DecidableEq, Repr

namespace Material

/-- A freshly constructed `Material` (empty cache, no active program). -/
def create : Material :=
  { programs := [], activeProgram := none, uniforms := none, nextProgramId := 0 }

/-- The hash accumulated by the loop at the top of `setKeywords`:
`hash += hashCode(keywords[i])` (exact JS number addition). -/
def keywordsHash (keywords : List String) : ℤ :=
  (keywords.map hashCode).sum

/-- `Material.setKeywords(keywords)`. -/
def setKeywords (m : Material) (keywords : List String) : Material :=
  let hash := keywordsHash keywords
  match m.programs.find? (fun e => e.1 == hash) with
  | some e =>
      let program := e.2
      if some program = m.activeProgram then m
      else { m with uniforms := some program, activeProgram := some program }
  | none =>
      let program := m.nextProgramId
      let m' := { m with programs := (hash, program) :: m.programs,
                         nextProgramId := m.nextProgramId + 1 }
      if some program = m'.activeProgram then m'
      else { m' with uniforms := some program, activeProgram := some program }

end Material

/-!
## Texture-format selection and context acquisition (`fluidHelpers.js`)
-/

/-- The internal formats passed to `getSupportedFormat`. -/
inductive GLInternalFormat
  | R16F | RG16F | RGBA16F | RGBA
deriving DecidableEq, Repr

/-- The texture formats passed alongside. -/
inductive GLTexFormat
  | RED | RG | RGBA
deriving DecidableEq, Repr

/-- Measure for the fallback recursion of `getSupportedFormat`. -/
def formatRank : GLInternalFormat → ℕ
  | .R16F => 2
  | .RG16F => 1
  | .RGBA16F => 0
  | .RGBA => 0

/-- `getSupportedFormat(gl, internalFormat, format, type)`; the host's
`supportRenderTextureFormat` probe is abstracted as `support`. -/
def getSupportedFormat (support : GLInternalFormat → GLTexFormat → Bool)
    (internalFormat : GLInternalFormat) (format : GLTexFormat) :
    Option (GLInternalFormat × GLTexFormat) :=
  if support internalFormat format then some (internalFormat, format)
  else
    match internalFormat with
    | .R16F => getSupportedFormat support .RG16F .RG
    | .RG16F => getSupportedFormat support .RGBA16F .RGBA
    | _ => none
termination_by formatRank internalFormat
decreasing_by
  all_goals simp [formatRank]

/-- `halfFloatTexType` values. -/
inductive HalfFloatTexType
  | HALF_FLOAT | HALF_FLOAT_OES
deriving DecidableEq, Repr

/-- The `ext` record returned by `getWebGLContext`. -/
structure GLExtensions where
  formatRGBA : Option (GLInternalFormat × GLTexFormat)
  formatRG : Option (GLInternalFormat × GLTexFormat)
  formatR : Option (GLInternalFormat × GLTexFormat)
  halfFloatTexType : HalfFloatTexType
  supportLinearFiltering : Bool
deriving DecidableEq, Repr

/-- The `{ gl, ext }` record returned by `getWebGLContext` on success. -/
structure GLContextResult where
  isWebGL2 : Bool
  ext : GLExtensions
deriving DecidableEq, Repr

/-- The host environment observed by `getWebGLContext`: which context tiers
`canvas.getContext` yields, which extensions are present, and the
framebuffer-completeness probe of `supportRenderTextureFormat`. -/
structure CanvasEnv where
  webgl2 : Bool
  webgl : Bool
  experimentalWebgl : Bool
  halfFloatExt : Bool
  floatLinearExt : Bool
  halfFloatLinearExt : Bool
  support : GLInternalFormat → GLTexFormat → Bool

/-- `getWebGLContext(canvas)`: `Except` models a thrown JS error. The
`new Error('WebGL not supported')` throw is explicit in the source; in the
WebGL1 path, reading `halfFloat.HALF_FLOAT_OES` when
`getExtension('OES_texture_half_float')` returned `null` throws a
`TypeError`. -/
def getWebGLContext (env : CanvasEnv) : Except String GLContextResult :=
  let isWebGL2 := env.webgl2
  let hasContext := env.webgl2 || env.webgl || env.experimentalWebgl
  if !hasContext then
    .error "WebGL not supported"
  else if isWebGL2 then
    .ok { isWebGL2 := true,
          ext := { formatRGBA := getSupportedFormat env.support .RGBA16F .RGBA,
                   formatRG := getSupportedFormat env.support .RG16F .RG,
                   formatR := getSupportedFormat env.support .R16F .RED,
                   halfFloatTexType := .HALF_FLOAT,
                   supportLinearFiltering := env.floatLinearExt } }
  else if env.halfFloatExt then
    .ok { isWebGL2 := false,
          ext := { formatRGBA := getSupportedFormat env.support .RGBA .RGBA,
                   formatRG := getSupportedFormat env.support .RGBA .RGBA,
                   formatR := getSupportedFormat env.support .RGBA .RGBA,
                   halfFloatTexType := .HALF_FLOAT_OES,
                   supportLinearFiltering := env.halfFloatLinearExt } }
  else
    .error "TypeError: cannot read HALF_FLOAT_OES of null"

/-!
## Shared lemmas
-/

theorem lerp_zero (a b : ℚ) : lerp a b 0 = a := by simp [lerp]

theorem lerp_one (a b : ℚ) : lerp a b 1 = b := by simp [lerp]

/-- Blending any config toward Neutral with factor 0 yields Neutral exactly. -/
theorem blendEmotionConfigs_neutral_zero (c : EmotionConfig) :
    blendEmotionConfigs c neutralPreset 0 = neutralPreset := by
  simp [blendEmotionConfigs, neutralPreset, lerp, jsRound]
  norm_num

/-- Blending toward the Joy preset with factor 1 yields Joy exactly (its
`BACK_COLOR` components are integers, so rounding is the identity). -/
theorem blendEmotionConfigs_joy_one (cur : EmotionConfig) :
    blendEmotionConfigs joyPreset cur 1 = joyPreset := by
  simp [blendEmotionConfigs, joyPreset, lerp, jsRound]
  norm_num

theorem normalizeEmotionName_joy : normalizeEmotionName "Joy" = "Joy" := by decide

/-- Lookup of `'Joy'` at full confidence returns the Joy preset unblended. -/
theorem getEmotionFluidConfig_joy_full : getEmotionFluidConfig "Joy" 1 = joyPreset := by
  have hno : ¬ ((1:ℚ) < 7/10) := by norm_num
  simp [getEmotionFluidConfig, hno, normalizeEmotionName_joy, emotionPresets]

/-!
## Claim theorems: emotion mapping
-/

/-- C5: for every emotion name, `getEmotionFluidConfig(name, 0.0)` equals the
Neutral preset in every field (numeric fields fully blended to Neutral,
boolean fields taking Neutral's value, `BACK_COLOR` equal to Neutral's), not
the raw named preset; in particular `setEmotion('Anger', 0.0)` targets the
Neutral preset. -/
theorem getEmotionFluidConfig_zero_confidence (emotionName : String)
    (t : EmotionTransitioner) :
    getEmotionFluidConfig emotionName 0 = neutralPreset ∧
    (t.setEmotion "Anger" 0).targetConfig = neutralPreset := by
  have h : ∀ s : String, getEmotionFluidConfig s 0 = neutralPreset := by
    intro s
    have h0 : ((0:ℚ) < 7/10) := by norm_num
    simp [getEmotionFluidConfig, h0, blendEmotionConfigs_neutral_zero]
  exact ⟨h emotionName, by simp [EmotionTransitioner.setEmotion, h]⟩

/-- C10: emotion-name lookup is case-insensitive via normalisation to
first-letter-uppercase rest-lowercase: whenever the normalised name equals a
preset key the corresponding preset is used, otherwise the Neutral preset is
used; `'joy'`, `'JOY'` and `'Joy'` all normalise to `'Joy'`. -/
theorem getEmotionFluidConfig_lookup (s : String) :
    (∀ cfg : EmotionConfig,
        emotionPresets (normalizeEmotionName s) = some cfg →
          getEmotionFluidConfig s 1 = cfg) ∧
    (emotionPresets (normalizeEmotionName s) = none →
        getEmotionFluidConfig s 1 = neutralPreset) ∧
    normalizeEmotionName "joy" = "Joy" ∧
    normalizeEmotionName "JOY" = "Joy" ∧
    normalizeEmotionName "Joy" = "Joy" := by
  have hno : ¬ ((1:ℚ) < 7/10) := by norm_num
  refine ⟨?_, ?_, by decide, by decide, by decide⟩
  · intro cfg hcfg
    simp [getEmotionFluidConfig, hno, hcfg]
  · intro hnone
    simp [getEmotionFluidConfig, hno, hnone]

/-- Witness for C10 at the concrete input `'JOY'`. -/
theorem getEmotionFluidConfig_lookup_witness :
    getEmotionFluidConfig "JOY" 1 = joyPreset :=
  (getEmotionFluidConfig_lookup "JOY").1 joyPreset rfl

/-- The blend-state invariant: progress in `[0,1]` and the fixed step. -/
def transitionerInv (s : EmotionTransitioner) : Prop :=
  0 ≤ s.transitionProgress ∧ s.transitionProgress ≤ 1 ∧ s.transitionSpeed = 2/100

theorem transitionerInv_create (c : EmotionConfig) :
    transitionerInv (EmotionTransitioner.create c) := by
  refine ⟨by norm_num [EmotionTransitioner.create], by norm_num [EmotionTransitioner.create], rfl⟩

theorem transitionerInv_setEmotion (s : EmotionTransitioner) (name : String)
    (confidence : ℚ) (h : transitionerInv s) :
    transitionerInv (s.setEmotion name confidence) := by
  exact ⟨by simp [EmotionTransitioner.setEmotion], by simp [EmotionTransitioner.setEmotion],
    by simpa [EmotionTransitioner.setEmotion] using h.2.2⟩

theorem transitionerInv_update (s : EmotionTransitioner) (h : transitionerInv s) :
    transitionerInv s.update := by
  obtain ⟨h0, h1, hs⟩ := h
  unfold EmotionTransitioner.update
  by_cases hp : s.transitionProgress < 1
  · rw [if_pos hp]
    refine ⟨le_min (by linarith) (by norm_num), min_le_right _ _, hs⟩
  · rw [if_neg hp]
    exact ⟨h0, h1, hs⟩

theorem transitionerInv_run (calls : List EmotionCall) :
    ∀ s : EmotionTransitioner, transitionerInv s →
      transitionerInv (runEmotionCalls calls s) := by
  induction calls with
  | nil => intro s h; simpa [runEmotionCalls] using h
  | cons c cs ih =>
      intro s h
      have hstep : transitionerInv
          (match c with
           | .set name confidence => s.setEmotion name confidence
           | .upd => s.update) := by
        cases c with
        | set name confidence => exact transitionerInv_setEmotion s name confidence h
        | upd => exact transitionerInv_update s h
      simpa [runEmotionCalls, List.foldl_cons] using ih _ hstep

/-- C6: invariant of the emotion blend state. For every sequence of
`setEmotion`/`update` calls from a freshly constructed `EmotionTransitioner`,
`transitionProgress` lies in `[0,1]`; every `setEmotion` call resets it to
exactly 0 (replacing the target outright); and every `update` call either
leaves a saturated progress of 1 unchanged or advances it by the fixed step
`0.02` capped at 1. -/
theorem emotionTransitioner_progress_invariant (calls : List EmotionCall) :
    let s := runEmotionCalls calls (EmotionTransitioner.create)
    (0 ≤ s.transitionProgress ∧ s.transitionProgress ≤ 1) ∧
    (∀ name confidence, (s.setEmotion name confidence).transitionProgress = 0 ∧
      (s.setEmotion name confidence).targetConfig =
        getEmotionFluidConfig name confidence) ∧
    (s.update.transitionProgress =
      if s.transitionProgress < 1 then min (s.transitionProgress + 2/100) 1
      else s.transitionProgress) := by
  intro s
  have hinv : transitionerInv s :=
    transitionerInv_run calls _ (transitionerInv_create neutralPreset)
  refine ⟨⟨hinv.1, hinv.2.1⟩, ?_, ?_⟩
  · intro name confidence
    exact ⟨rfl, rfl⟩
  · unfold EmotionTransitioner.update
    by_cases hp : s.transitionProgress < 1
    · simp [hp, hinv.2.2]
    · simp [hp]

/-- `update` on an unsaturated state: advance progress and blend. -/
theorem EmotionTransitioner.update_of_lt (t : EmotionTransitioner)
    (h : t.transitionProgress < 1) :
    t.update =
      { t with
        transitionProgress := min (t.transitionProgress + t.transitionSpeed) 1,
        currentConfig :=
          blendEmotionConfigs t.targetConfig t.currentConfig
            (if min (t.transitionProgress + t.transitionSpeed) 1 < 1/2 then
              2 * min (t.transitionProgress + t.transitionSpeed) 1
                * min (t.transitionProgress + t.transitionSpeed) 1
             else
              -1 + (4 - 2 * min (t.transitionProgress + t.transitionSpeed) 1)
                * min (t.transitionProgress + t.transitionSpeed) 1) } := by
  rw [EmotionTransitioner.update, if_pos h]

/-- `update` on a saturated state is the identity. -/
theorem EmotionTransitioner.update_of_ge (t : EmotionTransitioner)
    (h : ¬ t.transitionProgress < 1) :
    t.update = t := by
  rw [EmotionTransitioner.update, if_neg h]

/-- Progress, target and speed after `k` updates following `setEmotion('Joy', 1.0)`. -/
theorem joy_iterate_state (c : EmotionConfig) (k : ℕ) :
    (EmotionTransitioner.update^[k]
        ((EmotionTransitioner.create c).setEmotion "Joy" 1)).transitionProgress
      = min ((k : ℚ) * (2/100)) 1 ∧
    (EmotionTransitioner.update^[k]
        ((EmotionTransitioner.create c).setEmotion "Joy" 1)).targetConfig = joyPreset ∧
    (EmotionTransitioner.update^[k]
        ((EmotionTransitioner.create c).setEmotion "Joy" 1)).transitionSpeed = 2/100 := by
  induction k with
  | zero =>
      refine ⟨?_, ?_, rfl⟩
      · simp [EmotionTransitioner.setEmotion, EmotionTransitioner.create]
      · simpa [EmotionTransitioner.setEmotion] using getEmotionFluidConfig_joy_full
  | succ n ih =>
      obtain ⟨hp, ht, hs⟩ := ih
      rw [Function.iterate_succ_apply']
      by_cases hlt : (n : ℚ) * (2/100) < 1
      · have hmin : min ((n:ℚ) * (2/100)) 1 = (n:ℚ) * (2/100) :=
          min_eq_left (le_of_lt hlt)
        have hcond : (EmotionTransitioner.update^[n]
            ((EmotionTransitioner.create c).setEmotion "Joy" 1)).transitionProgress < 1 := by
          rw [hp, hmin]; exact hlt
        rw [EmotionTransitioner.update_of_lt _ hcond]
        refine ⟨?_, ht, hs⟩
        have harith : ((n : ℚ) + 1) * (2/100) = (n : ℚ) * (2/100) + 2/100 := by ring
        simp only [hp, hmin, hs, Nat.cast_succ, harith]
      · have hge : (1:ℚ) ≤ (n:ℚ) * (2/100) := not_lt.mp hlt
        have hmin : min ((n:ℚ) * (2/100)) 1 = 1 := min_eq_right hge
        have hcond : ¬ (EmotionTransitioner.update^[n]
            ((EmotionTransitioner.create c).setEmotion "Joy" 1)).transitionProgress < 1 := by
          rw [hp, hmin]; exact lt_irrefl 1
        rw [EmotionTransitioner.update_of_ge _ hcond]
        refine ⟨?_, ht, hs⟩
        have hge' : (1:ℚ) ≤ ((n:ℚ) + 1) * (2/100) := by nlinarith
        rw [hp, hmin, Nat.cast_succ, min_eq_right hge']

/-- C4: after `setEmotion('Joy', 1.0)`, repeated `update()` calls converge in
finitely many steps: progress advances by the fixed step 0.02 per call and
saturates at exactly 1 without overshoot; at progress 1 (after 50 calls) the
returned configuration equals the Joy preset, and the saturated state is a
fixed point of `update`, so every further call returns it unchanged. -/
theorem emotionTransitioner_joy_converges (c : EmotionConfig) :
    (∀ k : ℕ, (EmotionTransitioner.update^[k]
        ((EmotionTransitioner.create c).setEmotion "Joy" 1)).transitionProgress
      = min ((k : ℚ) * (2/100)) 1) ∧
    (EmotionTransitioner.update^[50]
        ((EmotionTransitioner.create c).setEmotion "Joy" 1)).currentConfig = joyPreset ∧
    EmotionTransitioner.update
        (EmotionTransitioner.update^[50]
          ((EmotionTransitioner.create c).setEmotion "Joy" 1))
      = EmotionTransitioner.update^[50]
          ((EmotionTransitioner.create c).setEmotion "Joy" 1) := by
  have hfix : (EmotionTransitioner.update^[50]
      ((EmotionTransitioner.create c).setEmotion "Joy" 1)).transitionProgress = 1 := by
    rw [(joy_iterate_state c 50).1]; norm_num
  refine ⟨fun k => (joy_iterate_state c k).1, ?_, ?_⟩
  · rw [show (50:ℕ) = 49 + 1 from rfl, Function.iterate_succ_apply']
    obtain ⟨hp, ht, hs⟩ := joy_iterate_state c 49
    have hp' : (EmotionTransitioner.update^[49]
        ((EmotionTransitioner.create c).setEmotion "Joy" 1)).transitionProgress
        = 98/100 := by rw [hp]; norm_num
    rw [EmotionTransitioner.update_of_lt _ (by rw [hp']; norm_num)]
    simp only [hp', hs]
    have hmin : min ((98:ℚ)/100 + 2/100) 1 = 1 := by norm_num
    rw [hmin, if_neg (by norm_num), show (-1 : ℚ) + (4 - 2 * 1) * 1 = 1 by norm_num,
      ht, blendEmotionConfigs_joy_one]
  · exact EmotionTransitioner.update_of_ge _ (by rw [hfix]; exact lt_irrefl 1)

/-!
## Claim theorems: animation timestep (C2)
-/

/-- C2 as stated is false: the code clamps `dt` to the literal `0.016666`,
not to `1/60 = 0.01666...`; at an elapsed time of 17 ms the code's `dt`
differs from `min(elapsed, 1/60)`. -/
theorem animateDt_ne_min_one_sixtieth :
    animateDt 17 0 ≠ min (((17:ℚ) - 0) / 1000) (1/60) := by
  have h1 : animateDt 17 0 = 16666/1000000 := by
    rw [animateDt]
    exact min_eq_right (by norm_num)
  have h2 : min (((17:ℚ) - 0) / 1000) (1/60) = 1/60 := min_eq_right (by norm_num)
  rw [h1, h2]
  norm_num

/-- C2 amended: each animation iteration computes
`dt = min(elapsed, 0.016666)` where `elapsed = (now - lastUpdateTime)/1000`
seconds; the cap `0.016666` is slightly below `1/60`, so no simulation step
ever advances time by more than `1/60` s, and whenever the elapsed time is
within the cap `dt` equals the elapsed time itself. -/
theorem animateDt_clamped (now lastUpdateTime : ℚ) :
    animateDt now lastUpdateTime ≤ 16666/1000000 ∧
    animateDt now lastUpdateTime ≤ 1/60 ∧
    ((now - lastUpdateTime) / 1000 ≤ 16666/1000000 →
      animateDt now lastUpdateTime = (now - lastUpdateTime) / 1000) :=
  ⟨min_le_right _ _, le_trans (min_le_right _ _) (by norm_num),
   fun h => min_eq_left h⟩

/-- Witness for the amended C2 at `now = 10`, `lastUpdateTime = 0`. -/
theorem animateDt_clamped_witness :
    animateDt 10 0 ≤ 16666/1000000 ∧ animateDt 10 0 ≤ 1/60 ∧
    animateDt 10 0 = ((10:ℚ) - 0) / 1000 :=
  ⟨(animateDt_clamped 10 0).1, (animateDt_clamped 10 0).2.1,
   (animateDt_clamped 10 0).2.2 (by norm_num)⟩

/-!
## Claim theorems: GPU pass order (C1) and splat radius (C8)
-/

/-- Interpreting the pressure loop yields one Jacobi pass and one pressure
swap per iteration. -/
theorem interpGL_pressureIterationOps (n : ℕ) (rest : List GLOp) (st : UniformStore) :
    interpGL (pressureIterationOps n ++ rest) (some .pressure) st =
      (List.replicate n [FluidPass.pressureJacobi, FluidPass.swapPressure]).flatten
        ++ interpGL rest (some .pressure) st := by
  induction n with
  | zero => simp [pressureIterationOps]
  | succ m ih =>
      simp [pressureIterationOps, interpGL, passOfBlit, passOfSwap, ih,
        List.replicate_succ]

/-- C1: within one `step(dt)` invocation the passes execute in exactly this
order: curl, vorticity confinement (velocity swap), divergence, clearing
pressure to the configured `PRESSURE` value (pressure swap), exactly
`PRESSURE_ITERATIONS` Jacobi pressure iterations (each followed by a pressure
swap), gradient subtraction (velocity swap), velocity self-advection with
`VELOCITY_DISSIPATION` (velocity swap), and finally dye advection with
`DENSITY_DISSIPATION` (dye swap). -/
theorem step_pass_order (cfg : FluidConfig)
    (dt velTexelX velTexelY dyeTexelX dyeTexelY : ℚ)
    (supportLinearFiltering : Bool) :
    interpGL (step cfg dt velTexelX velTexelY dyeTexelX dyeTexelY
        supportLinearFiltering) none [] =
      [.curl, .vorticity, .swapVelocity, .divergence,
       .clearPressure cfg.PRESSURE, .swapPressure]
      ++ (List.replicate cfg.PRESSURE_ITERATIONS
            [FluidPass.pressureJacobi, FluidPass.swapPressure]).flatten
      ++ [.gradientSubtract, .swapVelocity,
          .advectVelocity cfg.VELOCITY_DISSIPATION, .swapVelocity,
          .advectDye cfg.DENSITY_DISSIPATION, .swapDye] := by
  cases supportLinearFiltering <;>
    simp [step, interpGL, passOfBlit, passOfSwap, getUniform, setUniform,
      interpGL_pressureIterationOps]

/-- C8: both splat passes issued by `createSplat` (velocity perturbation,
then dye perturbation) use the same radius uniform, equal to the configured
`SPLAT_RADIUS` divided by 100 and aspect-corrected: multiplied by
`canvasWidth/canvasHeight` when that ratio exceeds 1, unchanged otherwise. -/
theorem createSplat_radius (cfg : FluidConfig) (x y dx dy : ℚ) (color : RGBColor)
    (canvasWidth canvasHeight : ℚ) :
    interpGL (createSplat cfg x y dx dy color canvasWidth canvasHeight) none [] =
      [.splat (.writeOf .velocity)
         (correctRadius (cfg.SPLAT_RADIUS / 100) canvasWidth canvasHeight),
       .swapVelocity,
       .splat (.writeOf .dye)
         (correctRadius (cfg.SPLAT_RADIUS / 100) canvasWidth canvasHeight),
       .swapDye] ∧
    correctRadius (cfg.SPLAT_RADIUS / 100) canvasWidth canvasHeight =
      (if canvasWidth / canvasHeight > 1 then
        cfg.SPLAT_RADIUS / 100 * (canvasWidth / canvasHeight)
       else cfg.SPLAT_RADIUS / 100) := by
  constructor
  · simp [createSplat, interpGL, passOfBlit, passOfSwap, getUniform, setUniform]
  · rfl

/-!
## Claim theorems: format selection (C3) and context acquisition (C7)
-/

/-- C3: for each of the three field-kind requests (1-channel `R16F`/`RED`,
2-channel `RG16F`/`RG`, 4-channel `RGBA16F`/`RGBA`), when the host reports
the requested internal format as not renderable the routine falls through to
the next wider format in the chain `R16F → RG16F → RGBA16F`; and the result
is non-`none` as long as some format of the request's chain is supported. -/
theorem getSupportedFormat_fallback
    (support : GLInternalFormat → GLTexFormat → Bool) :
    (support .R16F .RED = false →
      getSupportedFormat support .R16F .RED = getSupportedFormat support .RG16F .RG) ∧
    (support .RG16F .RG = false →
      getSupportedFormat support .RG16F .RG
        = getSupportedFormat support .RGBA16F .RGBA) ∧
    ((support .R16F .RED || support .RG16F .RG || support .RGBA16F .RGBA) = true →
      (getSupportedFormat support .R16F .RED).isSome = true) ∧
    ((support .RG16F .RG || support .RGBA16F .RGBA) = true →
      (getSupportedFormat support .RG16F .RG).isSome = true) ∧
    (support .RGBA16F .RGBA = true →
      (getSupportedFormat support .RGBA16F .RGBA).isSome = true) := by
  refine ⟨?_, ?_, ?_, ?_, ?_⟩
  · intro h
    rw [getSupportedFormat, if_neg (by simp [h])]
  · intro h
    rw [getSupportedFormat, if_neg (by simp [h])]
  · intro h
    rcases Bool.or_eq_true_iff.mp h with h' | h3
    · rcases Bool.or_eq_true_iff.mp h' with h1 | h2
      · simp [getSupportedFormat, h1]
      · by_cases hr : support .R16F .RED <;>
          simp [getSupportedFormat, hr, h2]
    · by_cases hr : support .R16F .RED <;>
        by_cases hg : support .RG16F .RG <;>
          simp [getSupportedFormat, hr, hg, h3]
  · intro h
    rcases Bool.or_eq_true_iff.mp h with h2 | h3
    · simp [getSupportedFormat, h2]
    · by_cases hg : support .RG16F .RG <;>
        simp [getSupportedFormat, hg, h3]
  · intro h
    simp [getSupportedFormat, h]

/-- Witness for C3: a host supporting only `RGBA16F` makes every request
fall through the chain and still succeed. -/
theorem getSupportedFormat_fallback_witness :
    ((fun f _ => f == GLInternalFormat.RGBA16F) GLInternalFormat.R16F GLTexFormat.RED
        = false) ∧
    getSupportedFormat (fun f _ => f == GLInternalFormat.RGBA16F) .R16F .RED
      = getSupportedFormat (fun f _ => f == GLInternalFormat.RGBA16F) .RG16F .RG ∧
    (getSupportedFormat (fun f _ => f == GLInternalFormat.RGBA16F) .R16F .RED).isSome
      = true :=
  ⟨rfl,
   (getSupportedFormat_fallback (fun f _ => f == GLInternalFormat.RGBA16F)).1 rfl,
   (getSupportedFormat_fallback (fun f _ => f == GLInternalFormat.RGBA16F)).2.2.1 rfl⟩

/-- An environment with a WebGL1 context but without the
`OES_texture_half_float` extension. -/
def webgl1NoHalfFloatEnv : CanvasEnv :=
  { webgl2 := false, webgl := true, experimentalWebgl := false,
    halfFloatExt := false, floatLinearExt := false, halfFloatLinearExt := false,
    support := fun _ _ => true }

/-- C7 as stated is false: with a WebGL1 context available but the
`OES_texture_half_float` extension absent, `getWebGLContext` still raises
(reading `halfFloat.HALF_FLOAT_OES` dereferences `null`), so availability of
a context tier does not guarantee a return without raising. -/
theorem getWebGLContext_raises_despite_context :
    webgl1NoHalfFloatEnv.webgl = true ∧
    getWebGLContext webgl1NoHalfFloatEnv
      = .error "TypeError: cannot read HALF_FLOAT_OES of null" :=
  ⟨rfl, rfl⟩

/-- C7 amended: `getWebGLContext` raises if and only if either no
WebGL-capable context can be obtained (neither `webgl2` nor `webgl` nor
`experimental-webgl`), or the context obtained is WebGL1 and the
`OES_texture_half_float` extension is absent; in every other case it returns
a context-and-formats record without raising. -/
theorem getWebGLContext_error_iff (env : CanvasEnv) :
    (∃ e, getWebGLContext env = .error e) ↔
      ((env.webgl2 = false ∧ env.webgl = false ∧ env.experimentalWebgl = false) ∨
       (env.webgl2 = false ∧ (env.webgl = true ∨ env.experimentalWebgl = true) ∧
         env.halfFloatExt = false)) := by
  obtain ⟨w2, w1, we, hf, fl, hfl, sup⟩ := env
  cases w2 <;> cases w1 <;> cases we <;> cases hf <;>
    simp [getWebGLContext]

/-- Witness for the amended C7: no context at all raises, and a WebGL2-only
environment does not raise. -/
theorem getWebGLContext_error_iff_witness :
    (∃ e, getWebGLContext
        { webgl2 := false, webgl := false, experimentalWebgl := false,
          halfFloatExt := false, floatLinearExt := false,
          halfFloatLinearExt := false, support := fun _ _ => true } = .error e) ∧
    ¬ (∃ e, getWebGLContext
        { webgl2 := true, webgl := false, experimentalWebgl := false,
          halfFloatExt := false, floatLinearExt := false,
          halfFloatLinearExt := false, support := fun _ _ => true } = .error e) :=
  ⟨(getWebGLContext_error_iff _).mpr (Or.inl ⟨rfl, rfl, rfl⟩),
   fun h => by
    have := (getWebGLContext_error_iff _).mp h
    simp at this⟩

/-!
## Claim theorems: `Material.setKeywords` caching (C9)
-/

/-- C9: the keyword-set hash is the sum of per-keyword hashes, so any
permutation of the keyword list selects the same hash; a repeated
`setKeywords` with a permuted list is a complete no-op (nothing recompiled,
no state change); a call whose hash misses the cache compiles exactly one
new program; a call whose hash hits the cache compiles nothing and leaves
the cache unchanged. -/
theorem Material.setKeywords_caches (m : Material) (keywords keywords2 : List String)
    (hperm : keywords.Perm keywords2) :
    Material.keywordsHash keywords2 = Material.keywordsHash keywords ∧
    (m.setKeywords keywords).setKeywords keywords2 = m.setKeywords keywords ∧
    (m.programs.find? (fun e => e.1 == Material.keywordsHash keywords) = none →
      (m.setKeywords keywords).nextProgramId = m.nextProgramId + 1) ∧
    (∀ e, m.programs.find? (fun e => e.1 == Material.keywordsHash keywords) = some e →
      (m.setKeywords keywords).nextProgramId = m.nextProgramId ∧
      (m.setKeywords keywords).programs = m.programs) := by
  have hhash : Material.keywordsHash keywords2 = Material.keywordsHash keywords := by
    unfold Material.keywordsHash
    exact (hperm.map hashCode).sum_eq.symm
  refine ⟨hhash, ?_, ?_, ?_⟩
  · unfold Material.setKeywords
    rw [hhash]
    cases hfind : m.programs.find? (fun e => e.1 == Material.keywordsHash keywords) with
    | some e =>
        by_cases hact : some e.2 = m.activeProgram <;>
          simp [hfind, hact]
    | none =>
        by_cases hact : some m.nextProgramId = m.activeProgram <;>
          simp [hfind, hact]
  · intro hnone
    unfold Material.setKeywords
    by_cases hact : some m.nextProgramId = m.activeProgram <;>
      simp [hnone, hact]
  · intro e hfind
    unfold Material.setKeywords
    by_cases hact : some e.2 = m.activeProgram <;>
      simp [hfind, hact]

/-- Witness for C9: on a fresh `Material`, `['SHADING','BLOOM']` compiles one
program and the permuted `['BLOOM','SHADING']` reuses it unchanged. -/
theorem Material.setKeywords_caches_witness :
    Material.keywordsHash ["BLOOM", "SHADING"]
      = Material.keywordsHash ["SHADING", "BLOOM"] ∧
    (Material.create.setKeywords ["SHADING", "BLOOM"]).setKeywords
        ["BLOOM", "SHADING"]
      = Material.create.setKeywords ["SHADING", "BLOOM"] ∧
    (Material.create.setKeywords ["SHADING", "BLOOM"]).nextProgramId
      = Material.create.nextProgramId + 1 := by
  have hperm : List.Perm ["SHADING", "BLOOM"] ["BLOOM", "SHADING"] :=
    List.Perm.swap "BLOOM" "SHADING" []
  obtain ⟨h1, h2, h3, _⟩ :=
    Material.setKeywords_caches Material.create ["SHADING", "BLOOM"]
      ["BLOOM", "SHADING"] hperm
  exact ⟨h1, h2, h3 rfl⟩
